import Mathlib

/-
Verification of the MetaSpatial room-placement scripts.

The development shallowly embeds the two Python scripts of the repository:
`3d_utlis/place_in_blender.py` (the inner script that runs inside the host
3D application) and `run_metaverse_local.py` (the outer launcher).  Python
dicts are modelled as ordered association lists with overwrite-on-existing-
key insertion, JSON numbers as rationals, Python string operations as
functions on `String`/`List Char`, and the outer launcher's observable
behaviour as a trace of actions.
-/

/-- The (x, y, z) position of a scene-graph record. -/
structure Position where
  x : ℚ
  y : ℚ
  z : ℚ
  deriving DecidableEq

/-- The rotation of a scene-graph record: an angle about the vertical axis,
in degrees. -/
structure Rotation where
  z_angle : ℚ
  deriving DecidableEq

/-- The target bounding size of a scene-graph record, in meters. -/
structure SizeInMeters where
  length : ℚ
  width : ℚ
  height : ℚ
  deriving DecidableEq

/-- One record of the scene-graph JSON (`scene_graph-backtracked.json`). -/
structure SceneRecord where
  new_object_id : String
  position : Position
  rotation : Rotation
  size_in_meters : SizeInMeters
  deriving DecidableEq

/-- Association-list lookup, modelling `d[k]` / `k in d` on a Python dict
represented as an ordered list of key-value pairs. -/
def alookup {α : Type} (m : List (String × α)) (k : String) : Option α :=
  match m with
  | [] => none
  | p :: rest => if p.1 = k then some p.2 else alookup rest k

/-- `d[k] = v` on a Python dict: overwrite the value in place when the key
is already present, append a new binding otherwise. -/
def dictInsert {α : Type} (m : List (String × α)) (k : String) (v : α) :
    List (String × α) :=
  if (alookup m k).isSome then
    m.map (fun p => if p.1 = k then (k, v) else p)
  else
    m ++ [(k, v)]

theorem alookup_append {α : Type} (l r : List (String × α)) (k : String) :
    alookup (l ++ r) k = ((alookup l k).rec (alookup r k) (fun v => some v)) := by
  induction l with
  | nil => simp [alookup]
  | cons p rest ih =>
      by_cases h : p.1 = k
      · simp [alookup, h]
      · simp [alookup, h, ih]

theorem alookup_map_replace_self {α : Type} (m : List (String × α))
    (k : String) (v : α) (h : (alookup m k).isSome) :
    alookup (m.map (fun p => if p.1 = k then (k, v) else p)) k = some v := by
  induction m with
  | nil => simp [alookup] at h
  | cons p rest ih =>
      by_cases hp : p.1 = k
      · simp [alookup, hp]
      · simp only [alookup, hp, if_false] at h
        simp [alookup, hp, ih h]

theorem alookup_map_replace_other {α : Type} (m : List (String × α))
    (k k' : String) (v : α) (hne : k' ≠ k) :
    alookup (m.map (fun p => if p.1 = k then (k, v) else p)) k' =
      alookup m k' := by
  induction m with
  | nil => simp [alookup]
  | cons p rest ih =>
      by_cases hp : p.1 = k
      · have hkk' : ¬ (k = k') := fun hh => hne hh.symm
        have hpk' : ¬ (p.1 = k') := by
          rw [hp]; exact hkk'
        simp [alookup, hp, hkk', hpk', ih]
      · by_cases hp' : p.1 = k'
        · simp [alookup, hp, hp', hne, ih]
        · simp [alookup, hp, hp', ih]

theorem alookup_dictInsert_self {α : Type} (m : List (String × α)) (k : String)
    (v : α) : alookup (dictInsert m k v) k = some v := by
  unfold dictInsert
  by_cases h : (alookup m k).isSome
  · rw [if_pos h]
    exact alookup_map_replace_self m k v h
  · rw [if_neg h]
    rw [alookup_append]
    cases hm : alookup m k with
    | some v => rw [hm] at h; simp at h
    | none => simp [alookup]

theorem alookup_dictInsert_other {α : Type} (m : List (String × α))
    (k k' : String) (v : α) (hne : k' ≠ k) :
    alookup (dictInsert m k v) k' = alookup m k' := by
  unfold dictInsert
  by_cases h : (alookup m k).isSome
  · rw [if_pos h]
    exact alookup_map_replace_other m k k' v hne
  · rw [if_neg h]
    rw [alookup_append]
    cases hm : alookup m k' with
    | some v => simp
    | none =>
        have hkk' : ¬ (k = k') := fun hh => hne hh.symm
        simp [alookup, hkk']

/-- The fixed structural labels filtered out when the scene graph is loaded
(`place_in_blender.py`, line 324). -/
def structuralLabels : List String :=
  ["south_wall", "north_wall", "east_wall", "west_wall", "middle of the room",
   "ceiling"]

/-- The scene-graph loading loop (`place_in_blender.py`, lines 318-325):
starting from an empty dict, every record whose `new_object_id` is not a
structural label is stored under its `new_object_id`. -/
def loadObjectsInRoom (data : List SceneRecord) : List (String × SceneRecord) :=
  data.foldl
    (fun acc item =>
      if item.new_object_id ∈ structuralLabels then acc
      else dictInsert acc item.new_object_id item)
    []

theorem loadObjectsInRoom_aux (data : List SceneRecord)
    (acc : List (String × SceneRecord)) (k : String) :
    (alookup (data.foldl
      (fun acc item =>
        if item.new_object_id ∈ structuralLabels then acc
        else dictInsert acc item.new_object_id item)
      acc) k).isSome ↔
    ((k ∉ structuralLabels ∧ ∃ r ∈ data, r.new_object_id = k) ∨
      (alookup acc k).isSome) := by
  induction data generalizing acc with
  | nil => simp
  | cons item rest ih =>
      rw [List.foldl_cons]
      by_cases hs : item.new_object_id ∈ structuralLabels
      · rw [if_pos hs, ih]
        constructor
        · rintro (⟨hk, r, hr, hrk⟩ | hacc)
          · exact Or.inl ⟨hk, r, List.mem_cons_of_mem _ hr, hrk⟩
          · exact Or.inr hacc
        · rintro (⟨hk, r, hr, hrk⟩ | hacc)
          · rcases List.mem_cons.mp hr with heq | hmem
            · subst heq
              exact absurd (hrk ▸ hs) hk
            · exact Or.inl ⟨hk, r, hmem, hrk⟩
          · exact Or.inr hacc
      · rw [if_neg hs, ih]
        by_cases hk : item.new_object_id = k
        · subst hk
          rw [alookup_dictInsert_self]
          simp only [Option.isSome_some]
          constructor
          · intro _
            exact Or.inl ⟨hs, item, List.mem_cons_self _ _, rfl⟩
          · intro _
            exact Or.inr trivial
        · rw [alookup_dictInsert_other _ _ _ _ (fun hh => hk hh.symm)]
          constructor
          · rintro (⟨hne, r, hr, hrk⟩ | hacc)
            · exact Or.inl ⟨hne, r, List.mem_cons_of_mem _ hr, hrk⟩
            · exact Or.inr hacc
          · rintro (⟨hne, r, hr, hrk⟩ | hacc)
            · rcases List.mem_cons.mp hr with heq | hmem
              · subst heq
                exact absurd hrk hk
              · exact Or.inl ⟨hne, r, hmem, hrk⟩
            · exact Or.inr hacc

/-- C3: a key is present in the loaded object dict exactly when it is the
identifier of some record of the scene graph and is not one of the six
structural labels. -/
theorem c3_structural_filter (data : List SceneRecord) (k : String) :
    (alookup (loadObjectsInRoom data) k).isSome ↔
      (k ∉ structuralLabels ∧ ∃ r ∈ data, r.new_object_id = k) := by
  rw [loadObjectsInRoom, loadObjectsInRoom_aux]
  simp [alookup]

/-- Fuel-driven scan removing every non-overlapping occurrence of `pat` from
a character list, left to right.  This is Python's `s.replace(pat, "")` for
nonempty `pat`; the fuel (one unit per character examined) makes the
definition structurally recursive and kernel-computable. -/
def removeOccsFuel (pat : List Char) : Nat → List Char → List Char
  | 0, s => s
  | _ + 1, [] => []
  | fuel + 1, c :: rest =>
    if pat.isPrefixOf (c :: rest) then
      removeOccsFuel pat fuel ((c :: rest).drop pat.length)
    else
      c :: removeOccsFuel pat fuel rest

/-- Python `s.replace(pat, "")`.  For an empty pattern Python interleaves the
empty replacement between characters, which is the identity. -/
def pyRemove (s pat : String) : String :=
  if pat.data = [] then s
  else String.mk (removeOccsFuel pat.data (s.data.length + 1) s.data)

/-- The candidate scene-graph keys tried for a mesh name
(`place_in_blender.py`, lines 185-190): the name itself, then the name with
`"-joined"` removed, with `".001"` removed, and with `".002"` removed. -/
def keyVariants (name : String) : List String :=
  [name,
   pyRemove name "-joined",
   pyRemove name ".001",
   pyRemove name ".002"]

/-- `k in d` on a Python dict. -/
def isKeyB {α : Type} (m : List (String × α)) (k : String) : Bool :=
  (alookup m k).isSome

/-- `next((k for k in key_variants if k in objects_in_room), None)`
(`place_in_blender.py`, line 191): the first key variant present in the
filtered scene graph. -/
def matchedKey (objects : List (String × SceneRecord)) (name : String) :
    Option String :=
  (keyVariants name).find? (isKeyB objects)

/-- The scene-graph record a mesh's transform is taken from:
`objects_in_room[key]` for the matched key, if any. -/
def matchedRecord (objects : List (String × SceneRecord)) (name : String) :
    Option SceneRecord :=
  (matchedKey objects name).bind (fun k => alookup objects k)

/-- The `transform_map` built by `batch_process_meshes`
(`place_in_blender.py`, lines 183-198), with each mesh name mapped to the
scene-graph record its position, rotation and size are taken from. -/
def transformMap (objects : List (String × SceneRecord))
    (meshNames : List String) : List (String × SceneRecord) :=
  meshNames.foldl
    (fun acc name =>
      match matchedRecord objects name with
      | some item => dictInsert acc name item
      | none => acc)
    []

theorem transformMap_aux (objects : List (String × SceneRecord))
    (names : List String) (acc : List (String × SceneRecord)) (name : String) :
    alookup (names.foldl
      (fun acc name =>
        match matchedRecord objects name with
        | some item => dictInsert acc name item
        | none => acc)
      acc) name =
    (if name ∈ names ∧ (matchedRecord objects name).isSome then
      matchedRecord objects name
    else alookup acc name) := by
  induction names generalizing acc with
  | nil => simp
  | cons n rest ih =>
      rw [List.foldl_cons]
      cases hm : matchedRecord objects n with
      | none =>
          simp only [hm]
          by_cases hn : name = n
          · subst hn
            rw [ih]
            simp [hm]
          · rw [ih]
            simp [List.mem_cons, hn]
      | some item =>
          simp only [hm]
          by_cases hn : name = n
          · subst hn
            rw [ih]
            by_cases hr : name ∈ rest
            · simp [hr, hm]
            · simp [hr, hm, alookup_dictInsert_self]
          · rw [ih, alookup_dictInsert_other _ _ _ _ hn]
            simp [List.mem_cons, hn]

/-- C2: a mesh's transform record is looked up by trying, in order, the mesh
name, the name with `"-joined"` removed, with `".001"` removed, and with
`".002"` removed, and using the first variant that is a key of the filtered
scene graph; a mesh none of whose four variants is a key gets no entry in the
transform map (hence no position, rotation or scale). -/
theorem c2_transform_key_matching (objects : List (String × SceneRecord))
    (meshNames : List String) (name : String) :
    (alookup (transformMap objects meshNames) name =
      (if name ∈ meshNames then matchedRecord objects name else none))
    ∧ matchedKey objects name =
      (if isKeyB objects name then some name
       else if isKeyB objects (pyRemove name "-joined") then
         some (pyRemove name "-joined")
       else if isKeyB objects (pyRemove name ".001") then
         some (pyRemove name ".001")
       else if isKeyB objects (pyRemove name ".002") then
         some (pyRemove name ".002")
       else none) := by
  constructor
  · rw [transformMap, transformMap_aux]
    cases hm : matchedRecord objects name with
    | none => simp [alookup, hm]
    | some item => simp [alookup, hm]
  · unfold matchedKey keyVariants
    cases h1 : isKeyB objects name <;>
      cases h2 : isKeyB objects (pyRemove name "-joined") <;>
        cases h3 : isKeyB objects (pyRemove name ".001") <;>
          cases h4 : isKeyB objects (pyRemove name ".002") <;>
            simp [List.find?, h1, h2, h3, h4]

/-- The rotation value computed for a matched record
(`place_in_blender.py`, line 196):
`(item["rotation"]["z_angle"] / 180.0) * math.pi + math.pi`, in radians. -/
noncomputable def appliedRotation (z_angle : ℚ) : ℝ :=
  ((z_angle : ℝ) / 180) * Real.pi + Real.pi

/-- The axis passed to the rotate operation
(`place_in_blender.py`, line 212): `orient_axis='Z'`. -/
def rotateOrientAxis : String := "Z"

/-- The rotation applied to a mesh (`place_in_blender.py`, lines 207-212):
the `rotation` field stored in `transform_map` for the mesh's name, if any. -/
noncomputable def rotationApplied (objects : List (String × SceneRecord))
    (meshNames : List String) (name : String) : Option ℝ :=
  (alookup (transformMap objects meshNames) name).map
    (fun item => appliedRotation item.rotation.z_angle)

/-- A concrete scene-graph record with `z_angle = 0`, used as test input. -/
def rec0 : SceneRecord :=
  { new_object_id := "chair"
    position := { x := 1, y := 2, z := 0 }
    rotation := { z_angle := 0 }
    size_in_meters := { length := 2, width := 1, height := 1 } }

/-- A one-record filtered scene graph holding `rec0` under `"chair"`. -/
def objs0 : List (String × SceneRecord) := [("chair", rec0)]

/-- C1 fails on the code: for the record `rec0` (whose `z_angle` is 0)
matched to the mesh `"chair"`, the rotation applied is not
`z_angle * pi / 180` — the code adds a `+ pi` offset (line 196). -/
theorem c1_rotation_counterexample :
    rotationApplied objs0 ["chair"] "chair" ≠
      some ((rec0.rotation.z_angle : ℝ) * Real.pi / 180) := by
  have hl : alookup (transformMap objs0 ["chair"]) "chair" = some rec0 := by
    decide
  have hz : rec0.rotation.z_angle = 0 := rfl
  rw [rotationApplied, hl]
  simp [appliedRotation, hz, Real.pi_ne_zero]

/-- C1 amended: for every scene-graph record matched to a mesh, the rotation
applied is about the `Z` axis and equals `z_angle * pi / 180 + pi` radians —
the record's angle in degrees converted to radians, plus a fixed offset of
`pi`. -/
theorem c1_rotation_amended (objects : List (String × SceneRecord))
    (meshNames : List String) (name : String) (item : SceneRecord)
    (h : alookup (transformMap objects meshNames) name = some item) :
    rotationApplied objects meshNames name =
      some ((item.rotation.z_angle : ℝ) * Real.pi / 180 + Real.pi)
    ∧ rotateOrientAxis = "Z" := by
  constructor
  · rw [rotationApplied, h]
    simp only [Option.map_some', Option.some_inj]
    rw [show appliedRotation item.rotation.z_angle =
      ((item.rotation.z_angle : ℝ) / 180) * Real.pi + Real.pi from rfl]
    ring
  · rfl

/-- Witness for `c1_rotation_amended` at the concrete scene graph `objs0`. -/
theorem c1_rotation_amended_witness :
    rotationApplied objs0 ["chair"] "chair" =
      some ((rec0.rotation.z_angle : ℝ) * Real.pi / 180 + Real.pi)
    ∧ rotateOrientAxis = "Z" :=
  c1_rotation_amended objs0 ["chair"] "chair" rec0 (by decide)

/-- Python float division, which raises `ZeroDivisionError` on a zero
divisor: modelled as `none` in that case. -/
def pyDiv (a b : ℚ) : Option ℚ :=
  if b = 0 then none else some (a / b)

/-- The per-object scale computation (`place_in_blender.py`, lines 215-224,
and the same expression in `rescale_object`, lines 117-127): the target
length, width and height divided by the mesh bounding-box x, y and z
dimensions, with no guard against zero. -/
def scale_factors (size : SizeInMeters) (dims : ℚ × ℚ × ℚ) :
    Option (ℚ × ℚ × ℚ) :=
  match pyDiv size.length dims.1, pyDiv size.width dims.2.1,
      pyDiv size.height dims.2.2 with
  | some a, some b, some c => some (a, b, c)
  | _, _, _ => none

/-- C9: the scale computation succeeds (raises no division error) exactly
when the mesh's bounding-box dimensions are nonzero on all three axes. -/
theorem c9_scale_division_guard (size : SizeInMeters) (dims : ℚ × ℚ × ℚ) :
    (scale_factors size dims).isSome ↔
      (dims.1 ≠ 0 ∧ dims.2.1 ≠ 0 ∧ dims.2.2 ≠ 0) := by
  unfold scale_factors pyDiv
  by_cases h1 : dims.1 = 0 <;> by_cases h2 : dims.2.1 = 0 <;>
    by_cases h3 : dims.2.2 = 0 <;> simp [h1, h2, h3]

/-- `os.path.join(a, b)` for a relative second component. -/
def joinPath (a b : String) : String := a ++ "/" ++ b

/-- Python `s.endswith(t)`. -/
def pyEndswith (s t : String) : Bool := decide (t.data <:+ s.data)

/-- Python `file.split(".")[0]`: the filename truncated at the first dot. -/
def splitKey (file : String) : String :=
  String.mk (file.data.takeWhile (fun c => c != '.'))

/-- `find_glb_files` (`place_in_blender.py`, lines 70-79): walk the directory
(here, the walk's (root, filename) pairs in encounter order), and for every
file ending in `".glb"` whose key is not yet in the dict, store the joined
path under the filename truncated at the first dot. -/
def find_glb_files (walk : List (String × String)) : List (String × String) :=
  walk.foldl
    (fun acc rf =>
      if pyEndswith rf.2 ".glb" then
        if (alookup acc (splitKey rf.2)).isSome then acc
        else dictInsert acc (splitKey rf.2) (joinPath rf.1 rf.2)
      else acc)
    []

/-- Left-biased choice on options, modelling "already-present key wins". -/
def oOr {α : Type} : Option α → Option α → Option α
  | some a, _ => some a
  | none, b => b

theorem find_glb_files_aux (walk : List (String × String))
    (acc : List (String × String)) (k : String) :
    alookup (walk.foldl
      (fun acc rf =>
        if pyEndswith rf.2 ".glb" then
          if (alookup acc (splitKey rf.2)).isSome then acc
          else dictInsert acc (splitKey rf.2) (joinPath rf.1 rf.2)
        else acc)
      acc) k =
    oOr (alookup acc k)
      ((walk.find? (fun rf => pyEndswith rf.2 ".glb" && (splitKey rf.2 == k))).map
        (fun rf => joinPath rf.1 rf.2)) := by
  induction walk generalizing acc with
  | nil =>
      cases h : alookup acc k <;> simp [oOr, h]
  | cons rf rest ih =>
      rw [List.foldl_cons]
      by_cases hg : pyEndswith rf.2 ".glb"
      · by_cases hk : splitKey rf.2 = k
        · by_cases hacc : (alookup acc (splitKey rf.2)).isSome
          · rw [if_pos hg, if_pos hacc, ih]
            rw [hk] at hacc
            rcases Option.isSome_iff_exists.mp hacc with ⟨v, hv⟩
            simp [List.find?, hg, hk, oOr, hv]
          · rw [if_pos hg, if_neg hacc, ih]
            rw [hk] at hacc
            have hnone : alookup acc k = none :=
              Option.not_isSome_iff_eq_none.mp hacc
            rw [hk, alookup_dictInsert_self]
            simp [List.find?, hg, hk, oOr, hnone]
        · have hne : k ≠ splitKey rf.2 := fun hh => hk hh.symm
          have hbeq : (splitKey rf.2 == k) = false := by
            simp [hk]
          by_cases hacc : (alookup acc (splitKey rf.2)).isSome
          · rw [if_pos hg, if_pos hacc, ih]
            simp [List.find?, hg, hbeq]
          · rw [if_pos hg, if_neg hacc, ih,
              alookup_dictInsert_other _ _ _ _ hne]
            simp [List.find?, hg, hbeq]
      · rw [if_neg hg, ih]
        simp [List.find?, hg]

theorem all_dictInsert {α : Type} (P : String × α → Bool)
    (m : List (String × α)) (k : String) (v : α) (hm : m.all P = true)
    (hv : P (k, v) = true) : (dictInsert m k v).all P = true := by
  unfold dictInsert
  split
  · rw [List.all_eq_true] at hm ⊢
    intro p hp
    rcases List.mem_map.mp hp with ⟨q, hq, hpq⟩
    by_cases hq1 : q.1 = k
    · rw [if_pos hq1] at hpq
      rw [← hpq]
      exact hv
    · rw [if_neg hq1] at hpq
      rw [← hpq]
      exact hm q hq
  · rw [List.all_append, hm]
    simp [hv]

theorem pyEndswith_joinPath (r f t : String) (h : pyEndswith f t = true) :
    pyEndswith (joinPath r f) t = true := by
  unfold pyEndswith at h ⊢
  rw [decide_eq_true_iff] at h ⊢
  have hd : (joinPath r f).data = (r ++ "/").data ++ f.data := rfl
  rw [hd]
  exact h.trans (List.suffix_append _ _)

theorem find_glb_files_all_glb (walk : List (String × String))
    (acc : List (String × String))
    (hacc : acc.all (fun kv => pyEndswith kv.2 ".glb") = true) :
    (walk.foldl
      (fun acc rf =>
        if pyEndswith rf.2 ".glb" then
          if (alookup acc (splitKey rf.2)).isSome then acc
          else dictInsert acc (splitKey rf.2) (joinPath rf.1 rf.2)
        else acc)
      acc).all (fun kv => pyEndswith kv.2 ".glb") = true := by
  induction walk generalizing acc with
  | nil => exact hacc
  | cons rf rest ih =>
      rw [List.foldl_cons]
      by_cases hg : pyEndswith rf.2 ".glb"
      · by_cases hin : (alookup acc (splitKey rf.2)).isSome
        · rw [if_pos hg, if_pos hin]
          exact ih acc hacc
        · rw [if_pos hg, if_neg hin]
          exact ih _ (all_dictInsert _ acc _ _ hacc
            (pyEndswith_joinPath rf.1 rf.2 ".glb" hg))
      · rw [if_neg hg]
        exact ih acc hacc

/-- C8: `find_glb_files` keys every `.glb` file by its filename truncated at
the first dot; when two files share a key the first one in the walk wins (the
lookup equals the first matching walk entry); every value is a path ending in
`".glb"`; and every `.glb` file's key is present in the map. -/
theorem c8_glb_map_first_wins (walk : List (String × String)) (k : String) :
    (alookup (find_glb_files walk) k =
      ((walk.find? (fun rf => pyEndswith rf.2 ".glb" && (splitKey rf.2 == k))).map
        (fun rf => joinPath rf.1 rf.2)))
    ∧ (find_glb_files walk).all (fun kv => pyEndswith kv.2 ".glb") = true
    ∧ walk.all (fun rf =>
        !pyEndswith rf.2 ".glb" ||
          (alookup (find_glb_files walk) (splitKey rf.2)).isSome) = true := by
  have hmain : ∀ k' : String, alookup (find_glb_files walk) k' =
      ((walk.find? (fun rf => pyEndswith rf.2 ".glb" && (splitKey rf.2 == k'))).map
        (fun rf => joinPath rf.1 rf.2)) := by
    intro k'
    rw [find_glb_files, find_glb_files_aux]
    simp [alookup, oOr]
  refine ⟨hmain k, ?_, ?_⟩
  · exact find_glb_files_all_glb walk [] rfl
  · rw [List.all_eq_true]
    intro rf hrf
    by_cases hg : pyEndswith rf.2 ".glb"
    · rw [hmain (splitKey rf.2)]
      simp only [Bool.or_eq_true]
      refine Or.inr ?_
      have hmap : ∀ (o : Option (String × String)),
          (Option.map (fun rf => joinPath rf.1 rf.2) o).isSome = o.isSome := by
        intro o
        cases o <;> rfl
      rw [hmap, List.find?_isSome]
      exact ⟨rf, hrf, by simp [hg]⟩
    · simp [hg]

/-- The warning printed for an object with no GLB file
(`place_in_blender.py`, line 139). -/
def importWarning (item_id : String) : String :=
  "Warning: No GLB file found for " ++ item_id

/-- The collection loop of `batch_import_assets`
(`place_in_blender.py`, lines 130-146): for every object of the filtered
scene graph, either append `(glb_file_paths[item_id], item_id)` to the list
of assets to load, or append a warning.  Every pair of the first component
is then loaded into the scene; the second component lists the printed
warnings. -/
def batch_import_assets (objectsInRoom : List (String × SceneRecord))
    (glbFilePaths : List (String × String)) :
    List (String × String) × List String :=
  objectsInRoom.foldl
    (fun acc p =>
      match alookup glbFilePaths p.1 with
      | some path => (acc.1 ++ [(path, p.1)], acc.2)
      | none => (acc.1, acc.2 ++ [importWarning p.1]))
    ([], [])

theorem batch_import_assets_aux (objects : List (String × SceneRecord))
    (glb : List (String × String)) (acc : List (String × String) × List String) :
    objects.foldl
      (fun acc p =>
        match alookup glb p.1 with
        | some path => (acc.1 ++ [(path, p.1)], acc.2)
        | none => (acc.1, acc.2 ++ [importWarning p.1]))
      acc =
    (acc.1 ++ objects.filterMap
        (fun p => (alookup glb p.1).map (fun path => (path, p.1))),
      acc.2 ++ (objects.filter (fun p => !(isKeyB glb p.1))).map
        (fun p => importWarning p.1)) := by
  induction objects generalizing acc with
  | nil => simp
  | cons p rest ih =>
      rw [List.foldl_cons]
      cases hp : alookup glb p.1 with
      | some path =>
          simp only [hp]
          rw [ih]
          simp [List.filterMap_cons, hp, isKeyB, List.filter_cons]
      | none =>
          simp only [hp]
          rw [ih]
          simp [List.filterMap_cons, hp, isKeyB, List.filter_cons]

/-- C4: the assets loaded are exactly the scene-graph objects whose
identifier has a GLB file (each paired with its path), in scene-graph order;
the warnings printed are exactly one per object with no GLB file; and every
loaded object's identifier has a GLB file (objects with a missing asset are
skipped, never loaded, and never abort the batch). -/
theorem c4_missing_asset_skipped (objects : List (String × SceneRecord))
    (glb : List (String × String)) :
    ((batch_import_assets objects glb).1 =
      objects.filterMap (fun p => (alookup glb p.1).map (fun path => (path, p.1))))
    ∧ ((batch_import_assets objects glb).2 =
      (objects.filter (fun p => !(isKeyB glb p.1))).map
        (fun p => importWarning p.1))
    ∧ ((batch_import_assets objects glb).1.map Prod.snd).all
        (fun i => isKeyB glb i) = true := by
  have h := batch_import_assets_aux objects glb ([], [])
  rw [batch_import_assets, h]
  refine ⟨rfl, rfl, ?_⟩
  rw [List.all_eq_true]
  intro i hi
  rcases List.mem_map.mp hi with ⟨q, hq, hqi⟩
  rcases List.mem_filterMap.mp hq with ⟨p, hp, hpq⟩
  cases hl : alookup glb p.1 with
  | none => rw [hl] at hpq; simp at hpq
  | some path =>
      rw [hl] at hpq
      simp only [Option.map_some', Option.some_inj] at hpq
      rw [← hqi, ← hpq]
      simp [isKeyB, hl]

/-- The filesystem and subprocess observations of one outer-script run
(`run_metaverse_local.py`): whether the room folder and the backtracked JSON
exist, whether the subprocess call raises, its return code, captured output,
and whether the expected render output exists afterwards. -/
structure OuterEnv where
  roomDirExists : Bool
  sceneGraphFileExists : Bool
  subprocRaises : Option String
  subprocReturncode : Int
  subprocStdout : String
  subprocStderr : String
  renderOutputExists : Bool
  deriving DecidableEq

/-- An observable action of the outer script. -/
inductive ScriptAction where
  | printed (msg : String)
  | ranSubprocess (cmd : String)
  | printedTiming
  deriving DecidableEq

/-- The render path the outer script checks after a successful run
(`run_metaverse_local.py`, line 87): always the step file, for any mode. -/
def outerRenderCheckPath (roomPath : String) (stepNumber : Int) : String :=
  joinPath roomPath ("render_output_step_" ++ toString stepNumber ++ ".png")

/-- `run_local_metaverse` (`run_metaverse_local.py`, lines 30-97) as a trace
of actions plus the Python return value: check the room folder, check the
backtracked JSON, build and run the command line, log stderr on a non-zero
return code, otherwise check for the render output; every `return` in the
source is a bare `return`, i.e. `none`. -/
def run_local_metaverse (env : OuterEnv) (projectRoot roomName : String)
    (stepNumber : Int) (groundTruth : String) (fastMode skipSave : Bool) :
    List ScriptAction × Option Int :=
  let roomsFolder := joinPath (joinPath projectRoot "3d_utlis") "data"
  let roomPath := joinPath roomsFolder roomName
  if env.roomDirExists then
    let backtrackedJsonPath := joinPath roomPath "scene_graph-backtracked.json"
    if env.sceneGraphFileExists then
      let script := joinPath (joinPath projectRoot "3d_utlis")
        "place_in_blender.py"
      let cmd0 := "python " ++ script ++ " --room_name " ++ roomName ++
        " --step_number " ++ toString stepNumber ++ " --ground_truth " ++
        groundTruth
      let cmd1 := if fastMode then cmd0 ++ " --fast_mode true" else cmd0
      let cmd := if skipSave then cmd1 ++ " --skip_save true" else cmd1
      let pre := [ScriptAction.printed ("Processing room: " ++ roomName),
        ScriptAction.printed ("Using scene graph: " ++ backtrackedJsonPath),
        ScriptAction.printed ("Running: " ++ cmd)]
      match env.subprocRaises with
      | some msg =>
          (pre ++ [ScriptAction.ranSubprocess cmd,
            ScriptAction.printed ("Error in run_local_metaverse: " ++ msg)], none)
      | none =>
          let mid := [ScriptAction.ranSubprocess cmd,
            ScriptAction.printed "BLENDER TIME DELAY OUTPUT",
            ScriptAction.printed env.subprocStdout]
          if env.subprocReturncode ≠ 0 then
            (pre ++ mid ++ [ScriptAction.printed
              ("Error running place_in_blender.py: " ++ env.subprocStderr)],
              none)
          else
            let renderOutput := outerRenderCheckPath roomPath stepNumber
            let renderMsg := if env.renderOutputExists then
                ScriptAction.printed ("Render output generated: " ++ renderOutput)
              else
                ScriptAction.printed
                  ("Warning: Expected render output not found at " ++
                    renderOutput)
            (pre ++ mid ++
              [ScriptAction.printed "Blender processing completed successfully",
                renderMsg, ScriptAction.printedTiming], none)
    else
      ([ScriptAction.printed ("Error: Backtracked JSON file " ++
        backtrackedJsonPath ++ " does not exist")], none)
  else
    ([ScriptAction.printed ("Error: Room folder " ++ roomPath ++
      " does not exist")], none)

/-- C5: when the room folder is missing, or when it exists but the
backtracked JSON file is missing, the run is exactly one printed error
message with a `None` return — in particular no subprocess is launched
(and the outer script writes no file on these paths). -/
theorem c5_missing_inputs_early_return (env : OuterEnv)
    (projectRoot roomName : String) (stepNumber : Int) (groundTruth : String)
    (fastMode skipSave : Bool) :
    (run_local_metaverse {env with roomDirExists := false} projectRoot
        roomName stepNumber groundTruth fastMode skipSave =
      ([ScriptAction.printed ("Error: Room folder " ++
        joinPath (joinPath (joinPath projectRoot "3d_utlis") "data") roomName
          ++ " does not exist")], none))
    ∧ (run_local_metaverse
        {env with roomDirExists := true, sceneGraphFileExists := false}
        projectRoot roomName stepNumber groundTruth fastMode skipSave =
      ([ScriptAction.printed ("Error: Backtracked JSON file " ++
        joinPath
          (joinPath (joinPath (joinPath projectRoot "3d_utlis") "data")
            roomName)
          "scene_graph-backtracked.json" ++ " does not exist")], none))
    ∧ (∀ c : String,
        ScriptAction.ranSubprocess c ∉
          (run_local_metaverse {env with roomDirExists := false} projectRoot
            roomName stepNumber groundTruth fastMode skipSave).1
        ∧ ScriptAction.ranSubprocess c ∉
          (run_local_metaverse
            {env with roomDirExists := true, sceneGraphFileExists := false}
            projectRoot roomName stepNumber groundTruth fastMode skipSave).1) := by
  refine ⟨rfl, rfl, ?_⟩
  intro c
  constructor
  · show ScriptAction.ranSubprocess c ∉ [ScriptAction.printed _]
    simp
  · show ScriptAction.ranSubprocess c ∉ [ScriptAction.printed _]
    simp

/-- C6: `run_local_metaverse` returns `None` on every path, and when the
subprocess exits with a non-zero return code the outer script logs the
stderr and still returns normally (it never propagates a distinct exit
code). -/
theorem c6_returns_none_and_logs_stderr (env : OuterEnv)
    (projectRoot roomName : String) (stepNumber : Int) (groundTruth : String)
    (fastMode skipSave : Bool) :
    ((run_local_metaverse env projectRoot roomName stepNumber groundTruth
        fastMode skipSave).2 = none)
    ∧ (env.roomDirExists = true → env.sceneGraphFileExists = true →
        env.subprocRaises = none → env.subprocReturncode ≠ 0 →
        ScriptAction.printed
            ("Error running place_in_blender.py: " ++ env.subprocStderr) ∈
          (run_local_metaverse env projectRoot roomName stepNumber groundTruth
            fastMode skipSave).1) := by
  obtain ⟨rd, sg, sr, rc, so, se, ro⟩ := env
  constructor
  · cases rd
    · rfl
    · cases sg
      · rfl
      · cases sr with
        | some msg => rfl
        | none =>
            by_cases hrc : rc ≠ 0
            · simp [run_local_metaverse, hrc]
            · cases ro <;> simp [run_local_metaverse, hrc]
  · intro h1 h2 h3 h4
    simp only at h1 h2 h3 h4
    subst h1
    subst h2
    subst h3
    simp [run_local_metaverse, h4]

/-- A concrete environment in which the subprocess fails. -/
def env0 : OuterEnv :=
  { roomDirExists := true
    sceneGraphFileExists := true
    subprocRaises := none
    subprocReturncode := 1
    subprocStdout := "out"
    subprocStderr := "boom"
    renderOutputExists := false }

/-- Witness for `c6_returns_none_and_logs_stderr` at `env0`. -/
theorem c6_returns_none_and_logs_stderr_witness :
    ScriptAction.printed ("Error running place_in_blender.py: " ++
        env0.subprocStderr) ∈
      (run_local_metaverse env0 "/root" "room_97" 1 "false" false false).1 :=
  (c6_returns_none_and_logs_stderr env0 "/root" "room_97" 1 "false" false
    false).2 rfl rfl rfl (by decide)

/-- The render file path set by `setup_render`
(`place_in_blender.py`, lines 292-295): the ground-truth file in
ground-truth mode, the step file otherwise. -/
def innerRenderFilepath (roomPath : String) (groundTruth : Bool)
    (stepNumber : Int) : String :=
  if groundTruth then joinPath roomPath "render_output_groundtruth1.png"
  else joinPath roomPath
    ("render_output_step_" ++ toString stepNumber ++ ".png")

theorem groundtruth_name_ne_step_name (s : String) :
    ("render_output_groundtruth1.png" : String) ≠
      "render_output_step_" ++ s ++ ".png" := by
  intro h
  have hd := congrArg String.data h
  have e : ("render_output_step_" ++ s ++ ".png" : String).data =
      ("render_output_step_" : String).data ++ s.data ++
        (".png" : String).data := rfl
  rw [e] at hd
  have h14 := congrArg (fun l => l.getD 14 ' ') hd
  simp only at h14
  have hb1 : 14 < (("render_output_step_" : String).data ++ s.data).length := by
    rw [List.length_append]
    have h19 : ("render_output_step_" : String).data.length = 19 := rfl
    omega
  have hb2 : (14 : Nat) < ("render_output_step_" : String).data.length := by
    have h19 : ("render_output_step_" : String).data.length = 19 := rfl
    omega
  rw [List.getD_append _ _ _ _ hb1, List.getD_append _ _ _ _ hb2] at h14
  rw [show (("render_output_groundtruth1.png" : String).data).getD 14 ' ' = 'g'
    from rfl] at h14
  rw [show (("render_output_step_" : String).data).getD 14 ' ' = 's'
    from rfl] at h14
  exact absurd h14 (by decide)

theorem joinPath_right_ne (r : String) {a b : String} (h : a ≠ b) :
    joinPath r a ≠ joinPath r b := by
  intro he
  apply h
  have hd : (joinPath r a).data = (joinPath r b).data := congrArg String.data he
  have e1 : (joinPath r a).data = (r ++ "/").data ++ a.data := rfl
  have e2 : (joinPath r b).data = (r ++ "/").data ++ b.data := rfl
  rw [e1, e2] at hd
  exact String.ext (List.append_cancel_left hd)

/-- C10: in ground-truth mode the inner script renders to
`render_output_groundtruth1.png`, while the outer script's post-run check
always looks for `render_output_step_{step_number}.png` (whatever the
`ground_truth` argument was), and the two paths never coincide for any step
number. -/
theorem c10_groundtruth_render_mismatch (env : OuterEnv)
    (roomPath projectRoot roomName : String) (stepNumber otherStep : Int)
    (groundTruth : String) (fastMode skipSave : Bool) :
    (innerRenderFilepath roomPath true stepNumber =
      joinPath roomPath "render_output_groundtruth1.png")
    ∧ innerRenderFilepath roomPath true stepNumber ≠
        outerRenderCheckPath roomPath otherStep
    ∧ ScriptAction.printed ("Warning: Expected render output not found at " ++
        outerRenderCheckPath
          (joinPath (joinPath (joinPath projectRoot "3d_utlis") "data")
            roomName)
          stepNumber) ∈
      (run_local_metaverse
        { env with
            roomDirExists := true
            sceneGraphFileExists := true
            subprocRaises := none
            subprocReturncode := 0
            renderOutputExists := false }
        projectRoot roomName stepNumber groundTruth fastMode skipSave).1 := by
  refine ⟨rfl, ?_, ?_⟩
  · show joinPath roomPath "render_output_groundtruth1.png" ≠
      joinPath roomPath ("render_output_step_" ++ toString otherStep ++ ".png")
    exact joinPath_right_ne roomPath
      (groundtruth_name_ne_step_name (toString otherStep))
  · simp [run_local_metaverse, outerRenderCheckPath]

/-- How an argparse argument parses its command-line input: as a plain
string, as an int, as a boolean converted from a boolean-like string via
`strtobool`, or as a value-less `store_true` switch. -/
inductive ArgKind where
  | argStr
  | argInt
  | argBoolFromStr
  | argStoreTrue
  deriving DecidableEq

/-- One `add_argument` declaration: flag name, parse kind, required flag. -/
structure ArgSpec where
  flag : String
  kind : ArgKind
  required : Bool
  deriving DecidableEq

/-- Whether a flag consumes a string value from the command line; argparse
`store_true` switches take no value. -/
def takesStringValue : ArgKind → Bool
  | .argStoreTrue => false
  | _ => true

/-- The outer script's CLI (`run_metaverse_local.py`, lines 102-107). -/
def outerArgSpecs : List ArgSpec :=
  [⟨"--room_name", .argStr, true⟩,
   ⟨"--step_number", .argInt, false⟩,
   ⟨"--ground_truth", .argStr, false⟩,
   ⟨"--fast_mode", .argStoreTrue, false⟩,
   ⟨"--skip_save", .argStoreTrue, false⟩]

/-- The inner script's CLI (`place_in_blender.py`, lines 11-16). -/
def innerArgSpecs : List ArgSpec :=
  [⟨"--room_name", .argStr, true⟩,
   ⟨"--step_number", .argInt, true⟩,
   ⟨"--ground_truth", .argBoolFromStr, true⟩,
   ⟨"--fast_mode", .argBoolFromStr, false⟩,
   ⟨"--skip_save", .argBoolFromStr, false⟩]

/-- C7 fails on the code: it is not the case that every boolean-valued flag
of the outer script takes a boolean-like string value on the command line —
`--fast_mode` (and `--skip_save`) are `store_true` switches there. -/
theorem c7_outer_storetrue_counterexample :
    ¬ (∀ s ∈ outerArgSpecs,
        s.flag ∈ ["--ground_truth", "--fast_mode", "--skip_save"] →
          takesStringValue s.kind = true) := by
  decide

/-- C7 amended: both scripts accept exactly the flags `--room_name`,
`--step_number`, `--ground_truth`, `--fast_mode`, `--skip_save`; the inner
script parses all three boolean flags from boolean-like strings via
`strtobool`; the outer script parses `--ground_truth` as a plain string
while `--fast_mode` and `--skip_save` are value-less `store_true`
switches. -/
theorem c7_cli_surface_amended :
    outerArgSpecs.map ArgSpec.flag =
      ["--room_name", "--step_number", "--ground_truth", "--fast_mode",
        "--skip_save"]
    ∧ innerArgSpecs.map ArgSpec.flag = outerArgSpecs.map ArgSpec.flag
    ∧ (innerArgSpecs.find? (fun s => s.flag == "--ground_truth")).map
        ArgSpec.kind = some ArgKind.argBoolFromStr
    ∧ (innerArgSpecs.find? (fun s => s.flag == "--fast_mode")).map
        ArgSpec.kind = some ArgKind.argBoolFromStr
    ∧ (innerArgSpecs.find? (fun s => s.flag == "--skip_save")).map
        ArgSpec.kind = some ArgKind.argBoolFromStr
    ∧ (outerArgSpecs.find? (fun s => s.flag == "--ground_truth")).map
        ArgSpec.kind = some ArgKind.argStr
    ∧ (outerArgSpecs.find? (fun s => s.flag == "--fast_mode")).map
        ArgSpec.kind = some ArgKind.argStoreTrue
    ∧ (outerArgSpecs.find? (fun s => s.flag == "--skip_save")).map
        ArgSpec.kind = some ArgKind.argStoreTrue
    ∧ takesStringValue ArgKind.argStoreTrue = false
    ∧ takesStringValue ArgKind.argBoolFromStr = true
    ∧ takesStringValue ArgKind.argStr = true := by
  decide
